import Mathlib

/-!
Verification of the threat-intelligence aggregation pipeline in `app.py`.

The Python program is shallowly embedded: Python values (`None`, booleans,
integers, strings, lists, dictionaries) become the inductive type `Py`;
operations that can raise (`dict` subscripting, attribute access on a
non-dict, model invocation, network calls) return `Except PyErr`.  The
external collaborators (HTTP providers, the classifier model, the alert
manager, the persistence layer) are parameters gathered in `Network` and
`World`, so that theorems quantify over every possible behaviour of the
collaborators.  Instrumented variants (suffix `T`) additionally return the
trace of provider-adapter invocations; the plain functions are their first
projections, so the trace is observation only.
-/

namespace ThreatIntel

/-- Python runtime values, as used by `app.py`: `None`, `bool`, `int`, `str`,
`list` and `dict` (an insertion-ordered association list, as in CPython). -/
inductive Py where
  | vNone : Py
  | vBool : Bool → Py
  | vInt : Int → Py
  | vStr : String → Py
  | vList : List Py → Py
  | vDict : List (String × Py) → Py

/-- Python exceptions that the embedded code can raise. -/
inductive PyErr where
  | keyError : PyErr
  | attributeError : PyErr
  | typeError : PyErr
  | other : PyErr
deriving DecidableEq

/-- Python truthiness (`bool(x)`). -/
def Py.truthy : Py → Bool
  | .vNone => false
  | .vBool b => b
  | .vInt n => n != 0
  | .vStr s => s != ""
  | .vList xs => !xs.isEmpty
  | .vDict kvs => !kvs.isEmpty

/-- First binding of a key in an association list (CPython dicts have unique
keys; lookup returns the binding for the key). -/
def assocFind : List (String × Py) → String → Option Py
  | [], _ => Option.none
  | (k, v) :: rest, key => if k = key then some v else assocFind rest key

/-- Replace the binding of a key, or append it (CPython `d[k] = v`). -/
def assocSet : List (String × Py) → String → Py → List (String × Py)
  | [], key, val => [(key, val)]
  | (k, v) :: rest, key, val =>
    if k = key then (k, val) :: rest else (k, v) :: assocSet rest key val

/-- Dictionary lookup as a partial observation: `some v` when the value is a
dict containing the key, `none` otherwise. -/
def Py.find? : Py → String → Option Py
  | .vDict kvs, key => assocFind kvs key
  | _, _ => Option.none

/-- Python `d.get(key, default)`: returns the default when the key is absent,
raises `AttributeError` when the receiver is not a dict. -/
def Py.get (d : Py) (key : String) (dflt : Py) : Except PyErr Py :=
  match d with
  | .vDict kvs => .ok ((assocFind kvs key).getD dflt)
  | _ => .error .attributeError

/-- Python `d[key]` on a dict: raises `KeyError` when the key is absent,
`TypeError` when the receiver is not subscriptable this way. -/
def Py.index (d : Py) (key : String) : Except PyErr Py :=
  match d with
  | .vDict kvs =>
    match assocFind kvs key with
    | some v => .ok v
    | Option.none => .error .keyError
  | _ => .error .typeError

/-- Python `d[key] = v`: updates a dict in place, raises `TypeError`
otherwise. -/
def Py.setItem (d : Py) (key : String) (v : Py) : Except PyErr Py :=
  match d with
  | .vDict kvs => .ok (.vDict (assocSet kvs key v))
  | _ => .error .typeError

/-- Python `a or b` (short-circuit, value-returning). -/
def pyOr (a b : Py) : Py :=
  if a.truthy then a else b

/-- Numeric view used by Python comparisons (`bool` compares as an int). -/
def Py.toNum? : Py → Option Int
  | .vInt n => some n
  | .vBool b => some (if b then 1 else 0)
  | _ => Option.none

/-- Python `a > b` restricted to the numeric comparisons the program
performs; a non-numeric operand raises `TypeError`. -/
def pyGT (a b : Py) : Except PyErr Bool :=
  match a.toNum?, b.toNum? with
  | some x, some y => .ok (decide (y < x))
  | _, _ => .error .typeError

/-- Truthiness of a Python string (`if s:`). -/
def strTruthy (s : String) : Bool := s != ""

/-- Truthiness of a string-or-`None` value (`if key:` where `key` is a
string or `None`). -/
def optStrTruthy : Option String → Bool
  | some s => strTruthy s
  | Option.none => false

/-- An HTTP response as observed by the adapters: its status code and the
result of `resp.json()` (which can itself raise on a malformed body). -/
structure HttpResp where
  status : Int
  json : Except PyErr Py

/-- The three provider HTTP endpoints, abstracted: each takes the queried IP
and the credential (possibly `None`) and either raises (transport error) or
yields a response. -/
structure Network where
  vt : String → Option String → Except PyErr HttpResp
  abuse : String → Option String → Except PyErr HttpResp
  otx : String → Option String → Except PyErr HttpResp

/-- A provider adapter: `fetch(ip, key)` returning a report dict, `None`
(non-200 status) or raising. -/
abbrev Adapter := String → Option String → Except PyErr (Option Py)

/-- `get_virustotal` from `app.py`: on a 200 response builds the report from
`data.attributes`, defaulting every missing field. -/
def get_virustotal (net : Network) : Adapter := fun ip key => do
  let resp ← net.vt ip key
  if resp.status = 200 then do
    let body ← resp.json
    let d1 ← body.get "data" (.vDict [])
    let data ← d1.get "attributes" (.vDict [])
    let country ← data.get "country" (.vStr "N/A")
    let asn ← data.get "asn" (.vStr "N/A")
    let las1 ← data.get "last_analysis_stats" (.vDict [])
    let malicious ← las1.get "malicious" (.vInt 0)
    let las2 ← data.get "last_analysis_stats" (.vDict [])
    let suspicious ← las2.get "suspicious" (.vInt 0)
    pure (some (.vDict
      [("IP", .vStr ip), ("Country", country), ("ASN", asn),
       ("Malicious", malicious), ("Suspicious", suspicious),
       ("Abuse Confidence", .vInt 0), ("Reputation", .vInt 0),
       ("Source", .vStr "VirusTotal")]))
  else
    pure Option.none

/-- `get_abuseipdb` from `app.py`: on a 200 response reads
`resp.json()["data"]` (a raising subscript) and builds the report. -/
def get_abuseipdb (net : Network) : Adapter := fun ip key => do
  let resp ← net.abuse ip key
  if resp.status = 200 then do
    let body ← resp.json
    let data ← body.index "data"
    let country ← data.get "countryCode" (.vStr "N/A")
    let isp ← data.get "isp" (.vStr "N/A")
    let conf ← data.get "abuseConfidenceScore" (.vInt 0)
    pure (some (.vDict
      [("IP", .vStr ip), ("Country", country), ("ISP", isp),
       ("Malicious", .vInt 0), ("Suspicious", .vInt 0),
       ("Abuse Confidence", conf), ("Reputation", .vInt 0),
       ("Source", .vStr "AbuseIPDB")]))
  else
    pure Option.none

/-- `get_otx` from `app.py`: on a 200 response reads fields directly off the
payload object, defaulting every missing field. -/
def get_otx (net : Network) : Adapter := fun ip key => do
  let resp ← net.otx ip key
  if resp.status = 200 then do
    let body ← resp.json
    let country ← body.get "country_name" (.vStr "N/A")
    let rep ← body.get "reputation" (.vInt 0)
    pure (some (.vDict
      [("IP", .vStr ip), ("Country", country),
       ("Malicious", .vInt 0), ("Suspicious", .vInt 0),
       ("Abuse Confidence", .vInt 0), ("Reputation", rep),
       ("Source", .vStr "AlienVault OTX")]))
  else
    pure Option.none

/-- The ordered provider table of `get_hybrid_report` (`functions` in
`app.py`; CPython dict literals preserve insertion order). -/
def providerList (net : Network) : List (String × Adapter) :=
  [("VirusTotal", get_virustotal net),
   ("AbuseIPDB", get_abuseipdb net),
   ("AlienVault OTX", get_otx net)]

/-- The `fallback_keys` dict of `get_hybrid_report`: the environment
credential for each provider name (`dict.get` returns `None` off-table). -/
def fallbackKeys (envKeys : String → Option String) (name : String) :
    Option String :=
  if name = "VirusTotal" then envKeys "VT_API_KEY"
  else if name = "AbuseIPDB" then envKeys "ABUSEIPDB_API_KEY"
  else if name = "AlienVault OTX" then envKeys "OTX_API_KEY"
  else Option.none

/-- The body of one hybrid-loop iteration's `try` block:
`result = func(ip, key)`; `if result: result["Source"] = name; return result`.
`.ok (some r)` means the loop returns `r`; `.ok none` means fall through to
the next provider; `.error` is a raised exception (caught by the loop). -/
def tryProvider (func : Adapter) (ip k name : String) :
    Except PyErr (Option Py) := do
  let result ← func ip (some k)
  match result with
  | some r =>
    if r.truthy then do
      let r2 ← r.setItem "Source" (.vStr name)
      pure (some r2)
    else
      pure Option.none
  | Option.none => pure Option.none

/-- The `for name, func in functions.items()` loop of `get_hybrid_report`,
instrumented with the list of providers actually invoked (name and the
credential passed).  A provider with no truthy credential is skipped without
appearing in the trace; a raised exception is swallowed and the loop
continues. -/
def hybridLoopT (fb : String → Option String) (manual : Option String)
    (ip : String) : List (String × Adapter) →
    Option Py × List (String × Option String)
  | [] => (Option.none, [])
  | (name, func) :: rest =>
    let key_to_use := if optStrTruthy manual then manual else fb name
    if optStrTruthy key_to_use then
      match tryProvider func ip (key_to_use.getD "") name with
      | .ok (some r) => (some r, [(name, key_to_use)])
      | .ok Option.none =>
        let p := hybridLoopT fb manual ip rest
        (p.1, (name, key_to_use) :: p.2)
      | .error _ =>
        let p := hybridLoopT fb manual ip rest
        (p.1, (name, key_to_use) :: p.2)
    else
      hybridLoopT fb manual ip rest

/-- `get_hybrid_report(ip, manual_key)` from `app.py`, instrumented with the
adapter-invocation trace. -/
def get_hybrid_reportT (net : Network) (envKeys : String → Option String)
    (ip : String) (manual : Option String) :
    Option Py × List (String × Option String) :=
  hybridLoopT (fallbackKeys envKeys) manual ip (providerList net)

/-- `get_hybrid_report(ip, manual_key)` from `app.py`: first provider in
priority order with a truthy credential and a truthy result wins; errors are
swallowed; `None` when all providers are skipped or fail. -/
def get_hybrid_report (net : Network) (envKeys : String → Option String)
    (ip : String) (manual : Option String) : Option Py :=
  (get_hybrid_reportT net envKeys ip manual).1

/-- The `api_choice` selectbox value. -/
inductive ApiChoice where
  | hybridFallback : ApiChoice
  | virusTotal : ApiChoice
  | abuseIPDB : ApiChoice
  | alienVaultOTX : ApiChoice
deriving DecidableEq

/-- The provider name shown for each direct choice (keys of
`api_function_map`). -/
def choiceName : ApiChoice → String
  | .hybridFallback => "Hybrid Fallback"
  | .virusTotal => "VirusTotal"
  | .abuseIPDB => "AbuseIPDB"
  | .alienVaultOTX => "AlienVault OTX"

/-- `api_key_env_map.get(api_choice, "")` from `app.py`: the environment
variable holding each provider's credential (hybrid is off-table). -/
def envVarOf : ApiChoice → String
  | .hybridFallback => ""
  | .virusTotal => "VT_API_KEY"
  | .abuseIPDB => "ABUSEIPDB_API_KEY"
  | .alienVaultOTX => "OTX_API_KEY"

/-- `api_function_map[api_choice]` from `app.py`: the adapter for a direct
choice; subscripting with the hybrid choice would raise `KeyError` (that
branch is unreachable in `run_analysis`). -/
def directAdapter (net : Network) : ApiChoice → Adapter
  | .virusTotal => get_virustotal net
  | .abuseIPDB => get_abuseipdb net
  | .alienVaultOTX => get_otx net
  | .hybridFallback => fun _ _ => .error .keyError

/-- The sidebar configuration that `run_analysis` closes over. -/
structure Config where
  apiChoice : ApiChoice
  userApiKey : String

/-- The external collaborators of the pipeline: network, environment,
classifier model (`rf_model.predict(...)[0]` on the four features), alert
manager and persistence. -/
structure World where
  net : Network
  envKeys : String → Option String
  model : List Py → Except PyErr Py
  checkAlerts : Py → Except PyErr Unit
  sendEmail : Py → Py → Except PyErr Unit
  saveReport : Py → Except PyErr Unit

/-- The report-fetch step of one `run_analysis` iteration, instrumented with
the adapter-invocation trace: hybrid mode delegates to `get_hybrid_report`
with `manual_key=user_api_key`; direct mode resolves the credential
(`user_api_key` if truthy, else the environment variable) and calls the
chosen adapter unconditionally. -/
def fetchStepT (w : World) (cfg : Config) (ip : String) :
    Except PyErr (Option Py) × List (String × Option String) :=
  match cfg.apiChoice with
  | .hybridFallback =>
    let p := get_hybrid_reportT w.net w.envKeys ip (some cfg.userApiKey)
    (.ok p.1, p.2)
  | c =>
    let key : Option String :=
      if strTruthy cfg.userApiKey then some cfg.userApiKey
      else w.envKeys (envVarOf c)
    (directAdapter w.net c ip key, [(choiceName c, key)])

/-- The feature-frame construction of `run_analysis` (lines 154-159):
`report.get(field, 0) or 0` for the four features, in order. -/
def extractFeatures (report : Py) : Except PyErr (List Py) := do
  let m ← report.get "Malicious" (.vInt 0)
  let s ← report.get "Suspicious" (.vInt 0)
  let a ← report.get "Abuse Confidence" (.vInt 0)
  let r ← report.get "Reputation" (.vInt 0)
  pure [pyOr m (.vInt 0), pyOr s (.vInt 0), pyOr a (.vInt 0),
    pyOr r (.vInt 0)]

/-- The alert decision of `run_analysis` (line 169):
`report.get("Abuse Confidence", 0) > 0 or report.get("Malicious", 0) > 0`,
with Python short-circuit evaluation. -/
def should_alert (report : Py) : Except PyErr Bool := do
  let a ← report.get "Abuse Confidence" (.vInt 0)
  let c1 ← pyGT a (.vInt 0)
  if c1 then
    pure true
  else do
    let m ← report.get "Malicious" (.vInt 0)
    let c2 ← pyGT m (.vInt 0)
    pure c2

/-- The alert `try` block of `run_analysis` (lines 167-172):
`check_alerts`, the alert decision, and on a positive decision the
`report['IP']` subscript and the email send.  Its exceptions are swallowed
by the enclosing `except`. -/
def alertBlock (w : World) (report : Py) : Except PyErr Unit := do
  w.checkAlerts report
  let dec ← should_alert report
  if dec then do
    let ipv ← report.index "IP"
    w.sendEmail ipv report
  else
    pure ()

/-- The body of one `run_analysis` iteration after the fetch: skip falsy
reports, extract features, classify inside a `try` whose `except` stamps the
`"Error"` sentinel, run the alert block (errors swallowed), persist, and
yield the report.  `.ok none` means `continue` (skipped), `.error` is an
exception reaching the per-IP `except`. -/
def processBody (w : World) (fetched : Except PyErr (Option Py)) :
    Except PyErr (Option Py) := do
  let report? ← fetched
  match report? with
  | some report =>
    if report.truthy then do
      let fv ← extractFeatures report
      let report2 ← (match (do
          let risk ← w.model fv
          report.setItem "AI Risk" risk : Except PyErr Py) with
        | .ok r2 => Except.ok r2
        | .error _ => report.setItem "AI Risk" (.vStr "Error"))
      let _alert := alertBlock w report2
      w.saveReport report2
      pure (some report2)
    else
      pure Option.none
  | Option.none => pure Option.none

/-- One full `run_analysis` iteration for one IP, instrumented with the
adapter-invocation trace. -/
def processIPT (w : World) (cfg : Config) (ip : String) :
    Except PyErr (Option Py) × List (String × Option String) :=
  let f := fetchStepT w cfg ip
  (processBody w f.1, f.2)

/-- One full `run_analysis` iteration for one IP: `.ok (some r)` appends
`r`, `.ok none` is a skip, `.error` reaches the per-IP `except`. -/
def processIP (w : World) (cfg : Config) (ip : String) :
    Except PyErr (Option Py) :=
  (processIPT w cfg ip).1

/-- `run_analysis(ip_list)` from `app.py`: per-IP processing inside
`try ... except: continue`, accumulating the successful reports in input
order. -/
def run_analysis (w : World) (cfg : Config) : List String → List Py
  | [] => []
  | ip :: rest =>
    match processIP w cfg ip with
    | .ok (some r) => r :: run_analysis w cfg rest
    | .ok Option.none => run_analysis w cfg rest
    | .error _ => run_analysis w cfg rest

/-! ### Helper lemmas -/

theorem exc_bind_ok {α β : Type} {m : Except PyErr α} {f : α → Except PyErr β}
    {b : β} (h : (m >>= f) = .ok b) : ∃ a, m = .ok a ∧ f a = .ok b := by
  cases m with
  | error e => simp [Bind.bind, Except.bind] at h
  | ok a => exact ⟨a, rfl, by simpa [Bind.bind, Except.bind] using h⟩

theorem assocFind_assocSet (kvs : List (String × Py)) (k k' : String)
    (v : Py) :
    assocFind (assocSet kvs k v) k' =
      if k = k' then some v else assocFind kvs k' := by
  induction kvs with
  | nil => simp [assocSet, assocFind]
  | cons kv rest ih =>
    by_cases h1 : kv.1 = k
    · simp only [assocSet, h1, if_pos rfl, assocFind]
      by_cases h2 : k = k' <;> simp [h2]
    · simp only [assocSet, if_neg h1, assocFind, ih]
      by_cases h2 : kv.1 = k' <;> by_cases h3 : k = k' <;>
        simp_all [assocFind]

theorem tryProvider_ok_some {func : Adapter} {ip k name : String} {r : Py}
    (h : tryProvider func ip k name = .ok (some r)) :
    ∃ kvs, func ip (some k) = .ok (some (.vDict kvs)) ∧
      (Py.vDict kvs).truthy = true ∧
      r = .vDict (assocSet kvs "Source" (.vStr name)) := by
  unfold tryProvider at h
  obtain ⟨res, hres, h⟩ := exc_bind_ok h
  cases res with
  | none => simp [Pure.pure, Except.pure] at h
  | some r0 =>
    dsimp only at h
    cases r0 with
    | vDict kvs =>
      by_cases ht : (Py.vDict kvs).truthy
      · rw [if_pos ht] at h
        obtain ⟨r2, hr2, h⟩ := exc_bind_ok h
        simp only [Py.setItem] at hr2
        have h1 : Py.vDict (assocSet kvs "Source" (Py.vStr name)) = r2 :=
          (Except.ok.injEq _ _).mp hr2
        have h2 : some r2 = some r := by
          simpa [Pure.pure, Except.pure] using h
        exact ⟨kvs, hres, ht,
          by rw [← (Option.some.injEq _ _).mp h2, ← h1]⟩
      · rw [if_neg ht] at h
        simp [Pure.pure, Except.pure] at h
    | vNone =>
      by_cases ht : Py.truthy .vNone
      · rw [if_pos ht] at h
        obtain ⟨r2, hr2, _⟩ := exc_bind_ok h
        simp [Py.setItem] at hr2
      · rw [if_neg ht] at h
        simp [Pure.pure, Except.pure] at h
    | vBool b =>
      by_cases ht : Py.truthy (.vBool b)
      · rw [if_pos ht] at h
        obtain ⟨r2, hr2, _⟩ := exc_bind_ok h
        simp [Py.setItem] at hr2
      · rw [if_neg ht] at h
        simp [Pure.pure, Except.pure] at h
    | vInt n =>
      by_cases ht : Py.truthy (.vInt n)
      · rw [if_pos ht] at h
        obtain ⟨r2, hr2, _⟩ := exc_bind_ok h
        simp [Py.setItem] at hr2
      · rw [if_neg ht] at h
        simp [Pure.pure, Except.pure] at h
    | vStr s =>
      by_cases ht : Py.truthy (.vStr s)
      · rw [if_pos ht] at h
        obtain ⟨r2, hr2, _⟩ := exc_bind_ok h
        simp [Py.setItem] at hr2
      · rw [if_neg ht] at h
        simp [Pure.pure, Except.pure] at h
    | vList xs =>
      by_cases ht : Py.truthy (.vList xs)
      · rw [if_pos ht] at h
        obtain ⟨r2, hr2, _⟩ := exc_bind_ok h
        simp [Py.setItem] at hr2
      · rw [if_neg ht] at h
        simp [Pure.pure, Except.pure] at h

theorem hybridLoopT_trace_sublist (fb : String → Option String)
    (manual : Option String) (ip : String) (ps : List (String × Adapter)) :
    ((hybridLoopT fb manual ip ps).2.map Prod.fst).Sublist
      (ps.map Prod.fst) := by
  induction ps with
  | nil => simp [hybridLoopT]
  | cons p rest ih =>
    obtain ⟨name, func⟩ := p
    simp only [hybridLoopT]
    by_cases hk : optStrTruthy (if optStrTruthy manual then manual
      else fb name)
    · rw [if_pos hk]
      cases htp : tryProvider func ip
          ((if optStrTruthy manual then manual else fb name).getD "")
          name with
      | ok o =>
        cases o with
        | some r0 => simp
        | none => simpa using List.Sublist.cons₂ name ih
      | error e => simpa using List.Sublist.cons₂ name ih
    · rw [if_neg hk]
      exact ih.cons _

theorem hybridLoopT_some {fb : String → Option String}
    {manual : Option String} {ip : String} {ps : List (String × Adapter)}
    {r : Py} (h : (hybridLoopT fb manual ip ps).1 = some r) :
    ∃ pre name key func,
      (hybridLoopT fb manual ip ps).2 = pre ++ [(name, key)] ∧
      (name, func) ∈ ps ∧
      optStrTruthy key = true ∧
      key = (if optStrTruthy manual then manual else fb name) ∧
      tryProvider func ip (key.getD "") name = .ok (some r) := by
  induction ps with
  | nil => simp [hybridLoopT] at h
  | cons p rest ih =>
    obtain ⟨name0, func0⟩ := p
    simp only [hybridLoopT] at h ⊢
    by_cases hk : optStrTruthy (if optStrTruthy manual then manual
      else fb name0)
    · rw [if_pos hk] at h ⊢
      cases htp : tryProvider func0 ip
          ((if optStrTruthy manual then manual else fb name0).getD "")
          name0 with
      | ok o =>
        cases o with
        | some r0 =>
          rw [htp] at h
          dsimp only at h ⊢
          refine ⟨[], name0, _, func0, rfl, List.mem_cons_self _ _,
            hk, rfl, ?_⟩
          rw [htp]
          exact congrArg Except.ok h
        | none =>
          rw [htp] at h
          dsimp only at h ⊢
          obtain ⟨pre, name, key, func, htr, hmem, hkt, hkey, hcall⟩ :=
            ih h
          exact ⟨(name0, if optStrTruthy manual then manual
              else fb name0) :: pre, name, key, func,
            by simp [htr], List.mem_cons_of_mem _ hmem, hkt, hkey, hcall⟩
      | error e =>
        rw [htp] at h
        dsimp only at h ⊢
        obtain ⟨pre, name, key, func, htr, hmem, hkt, hkey, hcall⟩ := ih h
        exact ⟨(name0, if optStrTruthy manual then manual
            else fb name0) :: pre, name, key, func,
          by simp [htr], List.mem_cons_of_mem _ hmem, hkt, hkey, hcall⟩
    · rw [if_neg hk] at h ⊢
      obtain ⟨pre, name, key, func, htr, hmem, hkt, hkey, hcall⟩ := ih h
      exact ⟨pre, name, key, func, htr, List.mem_cons_of_mem _ hmem,
        hkt, hkey, hcall⟩

theorem get_virustotal_shape {net : Network} {ip : String}
    {key : Option String} {r : Py}
    (h : get_virustotal net ip key = .ok (some r)) :
    ∃ kvs, r = .vDict (("IP", Py.vStr ip) :: kvs) := by
  unfold get_virustotal at h
  obtain ⟨resp, _, h⟩ := exc_bind_ok h
  by_cases hst : resp.status = 200
  · rw [if_pos hst] at h
    obtain ⟨body, _, h⟩ := exc_bind_ok h
    obtain ⟨d1, _, h⟩ := exc_bind_ok h
    obtain ⟨data, _, h⟩ := exc_bind_ok h
    obtain ⟨country, _, h⟩ := exc_bind_ok h
    obtain ⟨asn, _, h⟩ := exc_bind_ok h
    obtain ⟨las1, _, h⟩ := exc_bind_ok h
    obtain ⟨mal, _, h⟩ := exc_bind_ok h
    obtain ⟨las2, _, h⟩ := exc_bind_ok h
    obtain ⟨susp, _, h⟩ := exc_bind_ok h
    simp only [Pure.pure, Except.pure, Except.ok.injEq,
      Option.some.injEq] at h
    exact ⟨_, h.symm⟩
  · rw [if_neg hst] at h
    simp [Pure.pure, Except.pure] at h

theorem get_abuseipdb_shape {net : Network} {ip : String}
    {key : Option String} {r : Py}
    (h : get_abuseipdb net ip key = .ok (some r)) :
    ∃ kvs, r = .vDict (("IP", Py.vStr ip) :: kvs) := by
  unfold get_abuseipdb at h
  obtain ⟨resp, _, h⟩ := exc_bind_ok h
  by_cases hst : resp.status = 200
  · rw [if_pos hst] at h
    obtain ⟨body, _, h⟩ := exc_bind_ok h
    obtain ⟨data, _, h⟩ := exc_bind_ok h
    obtain ⟨country, _, h⟩ := exc_bind_ok h
    obtain ⟨isp, _, h⟩ := exc_bind_ok h
    obtain ⟨conf, _, h⟩ := exc_bind_ok h
    simp only [Pure.pure, Except.pure, Except.ok.injEq,
      Option.some.injEq] at h
    exact ⟨_, h.symm⟩
  · rw [if_neg hst] at h
    simp [Pure.pure, Except.pure] at h

theorem get_otx_shape {net : Network} {ip : String}
    {key : Option String} {r : Py}
    (h : get_otx net ip key = .ok (some r)) :
    ∃ kvs, r = .vDict (("IP", Py.vStr ip) :: kvs) := by
  unfold get_otx at h
  obtain ⟨resp, _, h⟩ := exc_bind_ok h
  by_cases hst : resp.status = 200
  · rw [if_pos hst] at h
    obtain ⟨body, _, h⟩ := exc_bind_ok h
    obtain ⟨country, _, h⟩ := exc_bind_ok h
    obtain ⟨rep, _, h⟩ := exc_bind_ok h
    simp only [Pure.pure, Except.pure, Except.ok.injEq,
      Option.some.injEq] at h
    exact ⟨_, h.symm⟩
  · rw [if_neg hst] at h
    simp [Pure.pure, Except.pure] at h

theorem providerList_shape {net : Network} {name : String} {func : Adapter}
    {ip : String} {key : Option String} {rr : Py}
    (hmem : (name, func) ∈ providerList net)
    (h : func ip key = .ok (some rr)) :
    ∃ kvs, rr = .vDict (("IP", Py.vStr ip) :: kvs) := by
  simp only [providerList, List.mem_cons, List.mem_singleton,
    Prod.mk.injEq, List.not_mem_nil, or_false] at hmem
  rcases hmem with ⟨_, hf⟩ | ⟨_, hf⟩ | ⟨_, hf⟩
  · exact get_virustotal_shape (hf ▸ h)
  · exact get_abuseipdb_shape (hf ▸ h)
  · exact get_otx_shape (hf ▸ h)

theorem get_hybrid_report_shape {net : Network}
    {envKeys : String → Option String} {ip : String}
    {manual : Option String} {r : Py}
    (h : (get_hybrid_reportT net envKeys ip manual).1 = some r) :
    ∃ kvs, r = .vDict (("IP", Py.vStr ip) :: kvs) := by
  obtain ⟨pre, name, key, func, htr, hmem, hkt, hkey, hcall⟩ :=
    hybridLoopT_some h
  obtain ⟨kvs0, hfunc, htr0, hr⟩ := tryProvider_ok_some hcall
  obtain ⟨kvs1, hk1⟩ := providerList_shape hmem hfunc
  have hkvs0 : kvs0 = ("IP", Py.vStr ip) :: kvs1 := by
    injection hk1
  refine ⟨assocSet kvs1 "Source" (.vStr name), ?_⟩
  rw [hr, hkvs0]
  simp [assocSet]

theorem fetchStepT_shape {w : World} {cfg : Config} {ip : String} {r : Py}
    (h : (fetchStepT w cfg ip).1 = .ok (some r)) :
    ∃ kvs, r = .vDict (("IP", Py.vStr ip) :: kvs) := by
  cases hc : cfg.apiChoice with
  | hybridFallback =>
    rw [fetchStepT, hc] at h
    dsimp only at h
    exact get_hybrid_report_shape ((Except.ok.injEq _ _).mp h)
  | virusTotal =>
    rw [fetchStepT, hc] at h
    exact get_virustotal_shape h
  | abuseIPDB =>
    rw [fetchStepT, hc] at h
    exact get_abuseipdb_shape h
  | alienVaultOTX =>
    rw [fetchStepT, hc] at h
    exact get_otx_shape h

theorem extractFeatures_dict (kvs : List (String × Py)) :
    extractFeatures (.vDict kvs) = .ok
      [pyOr ((assocFind kvs "Malicious").getD (.vInt 0)) (.vInt 0),
       pyOr ((assocFind kvs "Suspicious").getD (.vInt 0)) (.vInt 0),
       pyOr ((assocFind kvs "Abuse Confidence").getD (.vInt 0)) (.vInt 0),
       pyOr ((assocFind kvs "Reputation").getD (.vInt 0)) (.vInt 0)] := rfl

theorem setItem_ok {p : Py} {k : String} {v x : Py}
    (h : Py.setItem p k v = .ok x) :
    ∃ kvs, p = .vDict kvs ∧ x = .vDict (assocSet kvs k v) := by
  cases p with
  | vDict kvs =>
    exact ⟨kvs, rfl, ((Except.ok.injEq _ _).mp h).symm⟩
  | vNone => simp [Py.setItem] at h
  | vBool b => simp [Py.setItem] at h
  | vInt n => simp [Py.setItem] at h
  | vStr s => simp [Py.setItem] at h
  | vList xs => simp [Py.setItem] at h

theorem processBody_ok_some {w : World} {fetched : Except PyErr (Option Py)}
    {r2 : Py} (h : processBody w fetched = .ok (some r2)) :
    ∃ kvs risk, fetched = .ok (some (.vDict kvs)) ∧
      (Py.vDict kvs).truthy = true ∧
      r2 = .vDict (assocSet kvs "AI Risk" risk) := by
  unfold processBody at h
  obtain ⟨report?, hf, h⟩ := exc_bind_ok h
  cases report? with
  | none => simp [Pure.pure, Except.pure] at h
  | some report =>
    dsimp only at h
    by_cases ht : report.truthy
    · rw [if_pos ht] at h
      obtain ⟨fv, hfv, h⟩ := exc_bind_ok h
      obtain ⟨report2, hrep2, h⟩ := exc_bind_ok h
      obtain ⟨u, hsave, h⟩ := exc_bind_ok h
      simp only [Pure.pure, Except.pure, Except.ok.injEq,
        Option.some.injEq] at h
      cases hdo : (do
          let risk ← w.model fv
          report.setItem "AI Risk" risk : Except PyErr Py) with
      | ok x =>
        rw [hdo] at hrep2
        dsimp only at hrep2
        obtain ⟨risk, hrisk, hset⟩ := exc_bind_ok hdo
        obtain ⟨kvs, hp, hx⟩ := setItem_ok hset
        refine ⟨kvs, risk, hp ▸ hf, hp ▸ ht, ?_⟩
        rw [← h, ← (Except.ok.injEq _ _).mp hrep2, hx]
      | error e =>
        rw [hdo] at hrep2
        dsimp only at hrep2
        obtain ⟨kvs, hp, hx⟩ := setItem_ok hrep2
        refine ⟨kvs, .vStr "Error", hp ▸ hf, hp ▸ ht, ?_⟩
        rw [← h, hx]
    · rw [if_neg ht] at h
      simp [Pure.pure, Except.pure] at h

theorem processIP_ip_field {w : World} {cfg : Config} {ip : String}
    {r2 : Py} (h : processIP w cfg ip = .ok (some r2)) :
    r2.find? "IP" = some (.vStr ip) := by
  obtain ⟨kvs, risk, hf, ht, hr2⟩ := processBody_ok_some h
  obtain ⟨kvs1, hk1⟩ := fetchStepT_shape hf
  have hkvs : kvs = ("IP", Py.vStr ip) :: kvs1 := by injection hk1
  rw [hr2, hkvs]
  simp [Py.find?, assocSet, assocFind]

theorem processBody_model_error {w : World} {kvs : List (String × Py)}
    (ht : (Py.vDict kvs).truthy = true)
    (hm : ∀ v, ∃ e, w.model v = .error e)
    (hs : w.saveReport (.vDict (assocSet kvs "AI Risk" (.vStr "Error"))) =
      .ok ()) :
    processBody w (.ok (some (.vDict kvs))) =
      .ok (some (.vDict (assocSet kvs "AI Risk" (.vStr "Error")))) := by
  have he : ∀ v, w.model v = .error (hm v).choose :=
    fun v => (hm v).choose_spec
  unfold processBody
  simp only [Bind.bind, Except.bind]
  rw [if_pos ht, extractFeatures_dict]
  simp only [Except.bind]
  rw [he]
  simp only [Py.setItem, Except.bind]
  rw [hs]
  rfl

theorem should_alert_setItem_other (kvs : List (String × Py)) (k : String)
    (v : Py) (hk1 : k ≠ "Abuse Confidence") (hk2 : k ≠ "Malicious") :
    should_alert (.vDict (assocSet kvs k v)) =
      should_alert (.vDict kvs) := by
  unfold should_alert
  simp only [Py.get, assocFind_assocSet, if_neg hk1, if_neg hk2]

theorem py_find_assocSet_other (kvs : List (String × Py)) (k k' : String)
    (v : Py) (hk : ¬ k = k') :
    (Py.vDict (assocSet kvs k v)).find? k' = (Py.vDict kvs).find? k' := by
  simp [Py.find?, assocFind_assocSet, hk]

theorem fetchStepT_hybrid {w : World} {cfg : Config} {ip : String}
    (hc : cfg.apiChoice = .hybridFallback) :
    (fetchStepT w cfg ip).1 =
        .ok (get_hybrid_report w.net w.envKeys ip (some cfg.userApiKey)) ∧
      (fetchStepT w cfg ip).2 =
        (get_hybrid_reportT w.net w.envKeys ip (some cfg.userApiKey)).2 := by
  rw [fetchStepT, hc]
  exact ⟨rfl, rfl⟩

theorem processIP_fetch_none {w : World} {cfg : Config} {ip : String}
    (h : (fetchStepT w cfg ip).1 = .ok Option.none) :
    processIP w cfg ip = .ok Option.none := by
  have hd : processIP w cfg ip = processBody w (fetchStepT w cfg ip).1 := rfl
  rw [hd, h]
  rfl

theorem run_analysis_filterMap (w : World) (cfg : Config)
    (ips : List String) :
    run_analysis w cfg ips = ips.filterMap (fun ip =>
      match processIP w cfg ip with
      | .ok (some r) => some r
      | .ok Option.none => Option.none
      | .error _ => Option.none) := by
  induction ips with
  | nil => rfl
  | cons ip rest ih =>
    rw [run_analysis, List.filterMap_cons]
    cases hp : processIP w cfg ip with
    | ok o => cases o <;> simp [ih]
    | error e => simp [ih]

theorem run_analysis_mem {w : World} {cfg : Config} {ips : List String}
    {r : Py} (h : r ∈ run_analysis w cfg ips) :
    ∃ ip, ip ∈ ips ∧ processIP w cfg ip = .ok (some r) := by
  rw [run_analysis_filterMap] at h
  obtain ⟨ip, hip, hr⟩ := List.mem_filterMap.mp h
  refine ⟨ip, hip, ?_⟩
  cases hp : processIP w cfg ip with
  | ok o =>
    cases o with
    | some r0 => rw [hp] at hr; simpa using hr
    | none => rw [hp] at hr; simp at hr
  | error e => rw [hp] at hr; simp at hr

/-! ### Claim theorems -/

/-- C3: the alert decision returns true if and only if the report's
abuse confidence is greater than 0 or its malicious count is greater than 0,
for every report, and the decision is unchanged by whatever risk label
("AI Risk") the classifier attached, including the "Error" sentinel. -/
theorem claim3_alert_decision (kvs : List (String × Py)) (a m : Int)
    (ha : (assocFind kvs "Abuse Confidence").getD (.vInt 0) = .vInt a)
    (hm : (assocFind kvs "Malicious").getD (.vInt 0) = .vInt m) :
    should_alert (.vDict kvs) = .ok (decide (0 < a) || decide (0 < m)) ∧
    (should_alert (.vDict kvs) = .ok true ↔ 0 < a ∨ 0 < m) ∧
    ∀ risk, should_alert (.vDict (assocSet kvs "AI Risk" risk)) =
      should_alert (.vDict kvs) := by
  have h1 : should_alert (.vDict kvs) =
      .ok (decide (0 < a) || decide (0 < m)) := by
    unfold should_alert
    simp only [Py.get, Bind.bind, Except.bind, ha, hm]
    by_cases hpos : 0 < a
    · simp [pyGT, Py.toNum?, hpos, Pure.pure, Except.pure]
    · simp [pyGT, Py.toNum?, hpos, Pure.pure, Except.pure]
  refine ⟨h1, ?_, ?_⟩
  · rw [h1]
    simp [Bool.or_eq_true, decide_eq_true_iff]
  · intro risk
    exact should_alert_setItem_other kvs "AI Risk" risk
      (by decide) (by decide)

theorem claim3_witness :
    (assocFind [("Abuse Confidence", Py.vInt 0), ("Malicious", Py.vInt 3),
        ("AI Risk", Py.vStr "Error")] "Abuse Confidence").getD (.vInt 0) =
      .vInt 0 ∧
    should_alert (.vDict [("Abuse Confidence", Py.vInt 0),
      ("Malicious", Py.vInt 3), ("AI Risk", Py.vStr "Error")]) = .ok true := by
  refine ⟨rfl, ?_⟩
  have h := claim3_alert_decision [("Abuse Confidence", Py.vInt 0),
    ("Malicious", Py.vInt 3), ("AI Risk", Py.vStr "Error")] 0 3 rfl rfl
  exact h.2.1.mpr (Or.inr (by norm_num))

/-- C4: feature extraction is total on canonical (dict) reports: it always
yields exactly four features, in the fixed order malicious, suspicious,
abuse confidence, reputation, and a missing or null field becomes 0; in
particular a report missing all four numeric fields yields [0,0,0,0]. -/
theorem claim4_extract_total (kvs : List (String × Py)) :
    ∃ a b c d, extractFeatures (.vDict kvs) = .ok [a, b, c, d] ∧
      ((assocFind kvs "Malicious" = Option.none ∨
        assocFind kvs "Malicious" = some .vNone) → a = .vInt 0) ∧
      ((assocFind kvs "Suspicious" = Option.none ∨
        assocFind kvs "Suspicious" = some .vNone) → b = .vInt 0) ∧
      ((assocFind kvs "Abuse Confidence" = Option.none ∨
        assocFind kvs "Abuse Confidence" = some .vNone) → c = .vInt 0) ∧
      ((assocFind kvs "Reputation" = Option.none ∨
        assocFind kvs "Reputation" = some .vNone) → d = .vInt 0) := by
  refine ⟨_, _, _, _, extractFeatures_dict kvs, ?_, ?_, ?_, ?_⟩ <;>
  · rintro (h | h) <;> simp [h, pyOr, Py.truthy]

theorem claim4_witness :
    extractFeatures (.vDict [("IP", Py.vStr "8.8.8.8")]) =
      .ok [.vInt 0, .vInt 0, .vInt 0, .vInt 0] := by
  obtain ⟨a, b, c, d, h0, h1, h2, h3, h4⟩ :=
    claim4_extract_total [("IP", Py.vStr "8.8.8.8")]
  rw [h0, h1 (Or.inl rfl), h2 (Or.inl rfl), h3 (Or.inl rfl),
    h4 (Or.inl rfl)]

/-- C9: feature extraction coerces every falsy present value (numeric 0,
False, the empty string, None) to 0 through the `or 0` pattern, and passes
every truthy value through unchanged, in particular negative reputation
values. -/
theorem claim9_extract_falsy (kvs : List (String × Py)) :
    ∃ a b c d, extractFeatures (.vDict kvs) = .ok [a, b, c, d] ∧
      (∀ v, assocFind kvs "Malicious" = some v →
        (v.truthy = false → a = .vInt 0) ∧ (v.truthy = true → a = v)) ∧
      (∀ v, assocFind kvs "Suspicious" = some v →
        (v.truthy = false → b = .vInt 0) ∧ (v.truthy = true → b = v)) ∧
      (∀ v, assocFind kvs "Abuse Confidence" = some v →
        (v.truthy = false → c = .vInt 0) ∧ (v.truthy = true → c = v)) ∧
      (∀ v, assocFind kvs "Reputation" = some v →
        (v.truthy = false → d = .vInt 0) ∧ (v.truthy = true → d = v)) ∧
      (∀ n : Int, assocFind kvs "Reputation" = some (.vInt n) → ¬ n = 0 →
        d = .vInt n) := by
  refine ⟨_, _, _, _, extractFeatures_dict kvs, ?_, ?_, ?_, ?_, ?_⟩
  · intro v hv
    constructor <;> intro htv <;> simp [hv, pyOr, htv]
  · intro v hv
    constructor <;> intro htv <;> simp [hv, pyOr, htv]
  · intro v hv
    constructor <;> intro htv <;> simp [hv, pyOr, htv]
  · intro v hv
    constructor <;> intro htv <;> simp [hv, pyOr, htv]
  · intro n hn hne
    simp [hn, pyOr, Py.truthy, hne]

theorem claim9_witness :
    extractFeatures (.vDict [("Malicious", Py.vBool false),
      ("Suspicious", Py.vStr ""), ("Abuse Confidence", Py.vInt 0),
      ("Reputation", Py.vInt (-7))]) =
      .ok [.vInt 0, .vInt 0, .vInt 0, .vInt (-7)] := by
  obtain ⟨a, b, c, d, h0, h1, h2, h3, h4, h5⟩ :=
    claim9_extract_falsy [("Malicious", Py.vBool false),
      ("Suspicious", Py.vStr ""), ("Abuse Confidence", Py.vInt 0),
      ("Reputation", Py.vInt (-7))]
  rw [h0, (h1 _ rfl).1 rfl, (h2 _ rfl).1 rfl, (h3 _ rfl).1 rfl,
    h5 (-7) rfl (by norm_num)]

/-- C7: a failure anywhere in one IP's processing is caught: that IP is
skipped, contributes nothing to the result, and the remaining IPs are still
processed; the orchestrator itself is a total function, and an empty IP
list yields an empty result. -/
theorem claim7_failure_isolation :
    (∀ (w : World) (cfg : Config) (ip : String) (rest : List String)
       (e : PyErr), processIP w cfg ip = .error e →
       run_analysis w cfg (ip :: rest) = run_analysis w cfg rest) ∧
    ∀ (w : World) (cfg : Config), run_analysis w cfg [] = [] := by
  constructor
  · intro w cfg ip rest e h
    simp only [run_analysis, h]
  · intro w cfg
    rfl

/-! ### Concrete fixtures used by witnesses -/

/-- A VirusTotal payload with country US, 3 malicious, 1 suspicious. -/
def vtPayload : Py := .vDict [("data", .vDict [("attributes", .vDict
  [("country", .vStr "US"), ("last_analysis_stats", .vDict
    [("malicious", .vInt 3), ("suspicious", .vInt 1)])])])]

/-- A network where VirusTotal answers 200 except for the IP "bad" (404),
and the other providers raise on contact. -/
def selNet : Network :=
  { vt := fun ip _ => if ip = "bad" then .ok ⟨404, .ok .vNone⟩
      else .ok ⟨200, .ok vtPayload⟩
    abuse := fun _ _ => .error .other
    otx := fun _ _ => .error .other }

/-- A network where every provider raises on contact. -/
def downNet : Network :=
  { vt := fun _ _ => .error .other
    abuse := fun _ _ => .error .other
    otx := fun _ _ => .error .other }

/-- Environment with only the VirusTotal credential set. -/
def envVT : String → Option String := fun n =>
  if n = "VT_API_KEY" then some "vtkey" else Option.none

/-- Environment with no credential set. -/
def envEmpty : String → Option String := fun _ => Option.none

/-- A world whose collaborators all succeed, over `selNet`. -/
def selWorld : World :=
  { net := selNet
    envKeys := envVT
    model := fun _ => .ok (.vStr "High")
    checkAlerts := fun _ => .ok ()
    sendEmail := fun _ _ => .ok ()
    saveReport := fun _ => .ok () }

/-- `selWorld` with every provider down. -/
def downWorld : World := { selWorld with net := downNet }

/-- `selWorld` with no environment credential. -/
def noKeyWorld : World := { selWorld with envKeys := envEmpty }

/-- `selWorld` with a classifier that always raises. -/
def badModelWorld : World := { selWorld with model := fun _ => .error .other }

/-- The report produced by `selWorld` in hybrid mode for "1.2.3.4". -/
def vtReport1 : Py := .vDict
  [("IP", .vStr "1.2.3.4"), ("Country", .vStr "US"), ("ASN", .vStr "N/A"),
   ("Malicious", .vInt 3), ("Suspicious", .vInt 1),
   ("Abuse Confidence", .vInt 0), ("Reputation", .vInt 0),
   ("Source", .vStr "VirusTotal"), ("AI Risk", .vStr "High")]

theorem claim7_witness :
    processIP downWorld ⟨.virusTotal, "k"⟩ "1.2.3.4" = .error .other ∧
    run_analysis downWorld ⟨.virusTotal, "k"⟩ ["1.2.3.4", "5.6.7.8"] =
      run_analysis downWorld ⟨.virusTotal, "k"⟩ ["5.6.7.8"] ∧
    run_analysis downWorld ⟨.virusTotal, "k"⟩ [] = [] := by
  refine ⟨rfl, ?_, ?_⟩
  · exact claim7_failure_isolation.1 downWorld ⟨.virusTotal, "k"⟩
      "1.2.3.4" ["5.6.7.8"] .other rfl
  · exact claim7_failure_isolation.2 downWorld ⟨.virusTotal, "k"⟩

/-- C6: the orchestrator's output is exactly the per-IP results in input
order with skipped IPs removed, and in hybrid mode it never contains a
report for an IP for which the coordinator returned absent. -/
theorem claim6_output_order (w : World) (cfg : Config)
    (ips : List String) :
    run_analysis w cfg ips = ips.filterMap (fun ip =>
      match processIP w cfg ip with
      | .ok (some r) => some r
      | .ok Option.none => Option.none
      | .error _ => Option.none) ∧
    ∀ ip0, cfg.apiChoice = .hybridFallback →
      get_hybrid_report w.net w.envKeys ip0 (some cfg.userApiKey) =
        Option.none →
      ∀ r, r ∈ run_analysis w cfg ips →
        ¬ r.find? "IP" = some (.vStr ip0) := by
  refine ⟨run_analysis_filterMap w cfg ips, ?_⟩
  intro ip0 hc habs r hr hip
  obtain ⟨ip, hmem, hp⟩ := run_analysis_mem hr
  have hipf := processIP_ip_field hp
  rw [hipf] at hip
  have hip_eq : ip = ip0 := by
    simpa [Option.some.injEq, Py.vStr.injEq] using hip
  subst hip_eq
  have h1 := (@fetchStepT_hybrid w cfg ip hc).1
  rw [habs] at h1
  rw [processIP_fetch_none h1] at hp
  simp at hp

theorem claim6_witness :
    run_analysis selWorld ⟨.hybridFallback, ""⟩ ["1.2.3.4", "bad"] =
      [vtReport1] ∧
    ¬ vtReport1.find? "IP" = some (.vStr "bad") := by
  have h := claim6_output_order selWorld ⟨.hybridFallback, ""⟩
    ["1.2.3.4", "bad"]
  have hrun : run_analysis selWorld ⟨.hybridFallback, ""⟩
      ["1.2.3.4", "bad"] = [vtReport1] := rfl
  refine ⟨hrun, h.2 "bad" rfl rfl vtReport1 ?_⟩
  rw [hrun]
  exact List.mem_singleton_self _

/-- C1: in hybrid mode the providers actually invoked always form a prefix
pattern of the fixed priority order VirusTotal, AbuseIPDB, AlienVault OTX
(the invocation trace is a subsequence of that order, so no later provider
is ever invoked before an earlier one); and when a result is returned, the
provider that produced it is the last one invoked — no provider is called
after the first non-absent result — and the returned report is that
provider's own (truthy) result with its "Source" field stamped to that
provider's identity. -/
theorem claim1_hybrid_priority (net : Network)
    (envKeys : String → Option String) (ip : String)
    (manual : Option String) :
    ((get_hybrid_reportT net envKeys ip manual).2.map Prod.fst).Sublist
      ["VirusTotal", "AbuseIPDB", "AlienVault OTX"] ∧
    ∀ r, (get_hybrid_reportT net envKeys ip manual).1 = some r →
      ∃ pre name key k kvs func,
        (get_hybrid_reportT net envKeys ip manual).2 =
          pre ++ [(name, key)] ∧
        key = some k ∧
        (name, func) ∈ providerList net ∧
        func ip (some k) = .ok (some (.vDict kvs)) ∧
        (Py.vDict kvs).truthy = true ∧
        r = .vDict (assocSet kvs "Source" (.vStr name)) ∧
        r.find? "Source" = some (.vStr name) := by
  constructor
  · exact hybridLoopT_trace_sublist (fallbackKeys envKeys) manual ip
      (providerList net)
  · intro r h
    obtain ⟨pre, name, key, func, htr, hmem, hkt, hkey, hcall⟩ :=
      hybridLoopT_some h
    obtain ⟨kvs, hfunc, htru, hr⟩ := tryProvider_ok_some hcall
    cases key with
    | none => simp [optStrTruthy] at hkt
    | some k =>
      refine ⟨pre, name, some k, k, kvs, func, htr, rfl, hmem, hfunc,
        htru, hr, ?_⟩
      rw [hr]
      simp [Py.find?, assocFind_assocSet]

theorem claim1_witness :
    ∃ pre name key k kvs func,
      (get_hybrid_reportT selNet envVT "1.2.3.4" (some "")).2 =
        pre ++ [(name, key)] ∧
      key = some k ∧
      (name, func) ∈ providerList selNet ∧
      func "1.2.3.4" (some k) = .ok (some (.vDict kvs)) ∧
      (Py.vDict kvs).truthy = true ∧
      (Py.vDict [("IP", .vStr "1.2.3.4"), ("Country", .vStr "US"),
        ("ASN", .vStr "N/A"), ("Malicious", .vInt 3),
        ("Suspicious", .vInt 1), ("Abuse Confidence", .vInt 0),
        ("Reputation", .vInt 0), ("Source", .vStr "VirusTotal")]) =
        .vDict (assocSet kvs "Source" (.vStr name)) ∧
      (Py.vDict [("IP", .vStr "1.2.3.4"), ("Country", .vStr "US"),
        ("ASN", .vStr "N/A"), ("Malicious", .vInt 3),
        ("Suspicious", .vInt 1), ("Abuse Confidence", .vInt 0),
        ("Reputation", .vInt 0),
        ("Source", .vStr "VirusTotal")]).find? "Source" =
        some (.vStr "VirusTotal") := by
  have h := (claim1_hybrid_priority selNet envVT "1.2.3.4" (some "")).2
    (.vDict [("IP", .vStr "1.2.3.4"), ("Country", .vStr "US"),
      ("ASN", .vStr "N/A"), ("Malicious", .vInt 3),
      ("Suspicious", .vInt 1), ("Abuse Confidence", .vInt 0),
      ("Reputation", .vInt 0), ("Source", .vStr "VirusTotal")]) rfl
  obtain ⟨pre, name, key, k, kvs, func, h1, h2, h3, h4, h5, h6, h7⟩ := h
  exact ⟨pre, name, key, k, kvs, func, h1, h2, h3, h4, h5, h6, rfl⟩

theorem hybrid_no_creds (net : Network)
    (envKeys : String → Option String) (ip : String)
    (manual : Option String)
    (hman : optStrTruthy manual = false)
    (h1 : optStrTruthy (envKeys "VT_API_KEY") = false)
    (h2 : optStrTruthy (envKeys "ABUSEIPDB_API_KEY") = false)
    (h3 : optStrTruthy (envKeys "OTX_API_KEY") = false) :
    get_hybrid_reportT net envKeys ip manual = (Option.none, []) := by
  have hm' : ¬ (optStrTruthy manual = true) := by simp [hman]
  have c1 : ¬ (optStrTruthy (if optStrTruthy manual then manual
      else fallbackKeys envKeys "VirusTotal") = true) := by
    rw [if_neg hm']
    simp only [fallbackKeys, if_pos rfl]
    simp [h1]
  have c2 : ¬ (optStrTruthy (if optStrTruthy manual then manual
      else fallbackKeys envKeys "AbuseIPDB") = true) := by
    rw [if_neg hm']
    simp only [fallbackKeys]
    norm_num
    simp [h2]
  have c3 : ¬ (optStrTruthy (if optStrTruthy manual then manual
      else fallbackKeys envKeys "AlienVault OTX") = true) := by
    rw [if_neg hm']
    simp only [fallbackKeys]
    norm_num
    simp [h3]
  show hybridLoopT (fallbackKeys envKeys) manual ip (providerList net) =
    (Option.none, [])
  simp only [providerList, hybridLoopT]
  rw [if_neg c1, if_neg c2, if_neg c3]

/-- C2: in hybrid mode a provider error is swallowed and the loop moves to
the next provider; a provider whose credential does not resolve is skipped
without being invoked (it leaves no trace entry); if every provider is
skipped or fails the coordinator returns absent; and in particular with no
resolvable credential for any provider it returns absent having invoked
nobody. -/
theorem claim2_hybrid_error_handling :
    (∀ (fb : String → Option String) (manual : Option String)
       (ip name : String) (func : Adapter)
       (rest : List (String × Adapter)) (key : Option String) (e : PyErr),
       key = (if optStrTruthy manual then manual else fb name) →
       optStrTruthy key = true →
       tryProvider func ip (key.getD "") name = .error e →
       hybridLoopT fb manual ip ((name, func) :: rest) =
         ((hybridLoopT fb manual ip rest).1,
          (name, key) :: (hybridLoopT fb manual ip rest).2)) ∧
    (∀ (fb : String → Option String) (manual : Option String)
       (ip name : String) (func : Adapter)
       (rest : List (String × Adapter)),
       optStrTruthy (if optStrTruthy manual then manual else fb name) =
         false →
       hybridLoopT fb manual ip ((name, func) :: rest) =
         hybridLoopT fb manual ip rest) ∧
    (∀ (ps : List (String × Adapter)) (fb : String → Option String)
       (manual : Option String) (ip : String),
       (∀ name func, (name, func) ∈ ps →
         optStrTruthy (if optStrTruthy manual then manual else fb name) =
           true →
         ∀ r, ¬ tryProvider func ip
           ((if optStrTruthy manual then manual
             else fb name).getD "") name = .ok (some r)) →
       (hybridLoopT fb manual ip ps).1 = Option.none) ∧
    (∀ (net : Network) (envKeys : String → Option String) (ip : String)
       (manual : Option String),
       optStrTruthy manual = false →
       optStrTruthy (envKeys "VT_API_KEY") = false →
       optStrTruthy (envKeys "ABUSEIPDB_API_KEY") = false →
       optStrTruthy (envKeys "OTX_API_KEY") = false →
       get_hybrid_reportT net envKeys ip manual = (Option.none, [])) := by
  refine ⟨?_, ?_, ?_, ?_⟩
  · intro fb manual ip name func rest key e hkeq hkt hcall
    subst hkeq
    simp only [hybridLoopT]
    rw [if_pos hkt, hcall]
  · intro fb manual ip name func rest h
    simp only [hybridLoopT]
    rw [if_neg (by simp [h])]
  · intro ps fb manual ip hall
    induction ps with
    | nil => rfl
    | cons p rest ih =>
      obtain ⟨name, func⟩ := p
      have ihr : (hybridLoopT fb manual ip rest).1 = Option.none :=
        ih (fun n f hm => hall n f (List.mem_cons_of_mem _ hm))
      simp only [hybridLoopT]
      by_cases hk : optStrTruthy (if optStrTruthy manual then manual
        else fb name) = true
      · rw [if_pos hk]
        cases htp : tryProvider func ip
            ((if optStrTruthy manual then manual else fb name).getD "")
            name with
        | ok o =>
          cases o with
          | some r0 =>
            exact absurd htp (hall name func (List.mem_cons_self _ _) hk r0)
          | none => simpa using ihr
        | error e => simpa using ihr
      · rw [if_neg hk]
        exact ihr
  · exact fun net envKeys ip manual hman h1 h2 h3 =>
      hybrid_no_creds net envKeys ip manual hman h1 h2 h3

/-- An adapter that always raises, used as a witness fixture. -/
def failFunc : Adapter := fun _ _ => .error .other

/-- An adapter that always returns absent, used as a witness fixture. -/
def noneFunc : Adapter := fun _ _ => .ok Option.none

theorem claim2_witness :
    hybridLoopT (fun _ => some "k") Option.none "1.2.3.4"
      [("P", failFunc)] = (Option.none, [("P", some "k")]) ∧
    hybridLoopT (fun _ => Option.none) Option.none "1.2.3.4"
      [("P", failFunc)] = (Option.none, []) ∧
    (hybridLoopT (fun _ => some "k") Option.none "1.2.3.4"
      [("P", noneFunc)]).1 = Option.none ∧
    get_hybrid_reportT downNet envEmpty "9.9.9.9" Option.none =
      (Option.none, []) := by
  refine ⟨?_, ?_, ?_, ?_⟩
  · have h := claim2_hybrid_error_handling.1 (fun _ => some "k")
      Option.none "1.2.3.4" "P" failFunc [] (some "k") .other rfl rfl rfl
    simpa using h
  · have h := claim2_hybrid_error_handling.2.1 (fun _ => Option.none)
      Option.none "1.2.3.4" "P" failFunc [] rfl
    simpa using h
  · refine claim2_hybrid_error_handling.2.2.1 [("P", noneFunc)]
      (fun _ => some "k") Option.none "1.2.3.4" ?_
    intro name func hm hk r hcon
    simp only [List.mem_singleton, Prod.mk.injEq] at hm
    rw [hm.2] at hcon
    simp [noneFunc, tryProvider, Bind.bind, Except.bind, Pure.pure,
      Except.pure] at hcon
  · exact claim2_hybrid_error_handling.2.2.2 downNet envEmpty "9.9.9.9"
      Option.none rfl rfl rfl rfl

/-- C10: in direct (single-provider) mode, when no manual credential is
supplied and the provider's environment credential is unset, the chosen
adapter is still invoked — exactly once, with a null credential — whereas
in hybrid mode with the same unresolvable credentials no adapter is invoked
at all. -/
theorem claim10_direct_null_credential :
    (∀ (w : World) (cfg : Config) (ip : String),
       ¬ cfg.apiChoice = ApiChoice.hybridFallback →
       strTruthy cfg.userApiKey = false →
       w.envKeys (envVarOf cfg.apiChoice) = Option.none →
       (fetchStepT w cfg ip).2 =
         [(choiceName cfg.apiChoice, Option.none)]) ∧
    (∀ (w : World) (cfg : Config) (ip : String),
       cfg.apiChoice = ApiChoice.hybridFallback →
       strTruthy cfg.userApiKey = false →
       optStrTruthy (w.envKeys "VT_API_KEY") = false →
       optStrTruthy (w.envKeys "ABUSEIPDB_API_KEY") = false →
       optStrTruthy (w.envKeys "OTX_API_KEY") = false →
       (fetchStepT w cfg ip).2 = []) := by
  constructor
  · intro w cfg ip hnh hu he
    cases hc : cfg.apiChoice with
    | hybridFallback => exact absurd hc hnh
    | virusTotal =>
      rw [hc] at he
      rw [fetchStepT, hc]
      dsimp only
      rw [if_neg (by simp [hu]), he]
    | abuseIPDB =>
      rw [hc] at he
      rw [fetchStepT, hc]
      dsimp only
      rw [if_neg (by simp [hu]), he]
    | alienVaultOTX =>
      rw [hc] at he
      rw [fetchStepT, hc]
      dsimp only
      rw [if_neg (by simp [hu]), he]
  · intro w cfg ip hc hu h1 h2 h3
    have hf := (@fetchStepT_hybrid w cfg ip hc).2
    rw [hf, hybrid_no_creds w.net w.envKeys ip (some cfg.userApiKey)
      (by simp [optStrTruthy, hu]) h1 h2 h3]

theorem claim10_witness :
    (fetchStepT noKeyWorld ⟨.virusTotal, ""⟩ "9.9.9.9").2 =
      [("VirusTotal", Option.none)] ∧
    (fetchStepT noKeyWorld ⟨.hybridFallback, ""⟩ "9.9.9.9").2 = [] := by
  constructor
  · exact claim10_direct_null_credential.1 noKeyWorld ⟨.virusTotal, ""⟩
      "9.9.9.9" (by simp) rfl rfl
  · exact claim10_direct_null_credential.2 noKeyWorld
      ⟨.hybridFallback, ""⟩ "9.9.9.9" rfl rfl rfl rfl rfl

/-- C5: when the classifier raises on every input, a fetched report is
still processed to completion: its risk label is the "Error" sentinel, it
is appended to the orchestrator result, and the alert decision and the raw
counts it reads are unaffected by the classification failure. -/
theorem claim5_classifier_isolation (w : World) (cfg : Config)
    (ip : String) (report : Py)
    (hf : (fetchStepT w cfg ip).1 = .ok (some report))
    (hm : ∀ v, ∃ e, w.model v = .error e)
    (hs : ∀ rep, w.saveReport rep = .ok ()) :
    ∃ r2, processIP w cfg ip = .ok (some r2) ∧
      run_analysis w cfg [ip] = [r2] ∧
      r2.find? "AI Risk" = some (.vStr "Error") ∧
      should_alert r2 = should_alert report ∧
      r2.find? "Malicious" = report.find? "Malicious" ∧
      r2.find? "Abuse Confidence" = report.find? "Abuse Confidence" := by
  obtain ⟨kvs1, hshape⟩ := fetchStepT_shape hf
  subst hshape
  have ht : (Py.vDict (("IP", Py.vStr ip) :: kvs1)).truthy = true := by
    simp [Py.truthy]
  have hpb := @processBody_model_error w (("IP", Py.vStr ip) :: kvs1)
    ht hm (hs _)
  have hpi : processIP w cfg ip = .ok (some (.vDict
      (assocSet (("IP", Py.vStr ip) :: kvs1) "AI Risk"
        (.vStr "Error")))) := by
    show processBody w (fetchStepT w cfg ip).1 = _
    rw [hf]
    exact hpb
  refine ⟨_, hpi, ?_, ?_, ?_, ?_, ?_⟩
  · simp [run_analysis, hpi]
  · simp [Py.find?, assocFind_assocSet]
  · exact should_alert_setItem_other _ "AI Risk" (.vStr "Error")
      (by decide) (by decide)
  · exact py_find_assocSet_other _ "AI Risk" "Malicious" _ (by decide)
  · exact py_find_assocSet_other _ "AI Risk" "Abuse Confidence" _
      (by decide)

/-- The raw VirusTotal report for "1.2.3.4" before classification. -/
def vtReportRaw : Py := .vDict
  [("IP", .vStr "1.2.3.4"), ("Country", .vStr "US"), ("ASN", .vStr "N/A"),
   ("Malicious", .vInt 3), ("Suspicious", .vInt 1),
   ("Abuse Confidence", .vInt 0), ("Reputation", .vInt 0),
   ("Source", .vStr "VirusTotal")]

theorem claim5_witness :
    ∃ r2, processIP badModelWorld ⟨.hybridFallback, ""⟩ "1.2.3.4" =
        .ok (some r2) ∧
      run_analysis badModelWorld ⟨.hybridFallback, ""⟩ ["1.2.3.4"] =
        [r2] ∧
      r2.find? "AI Risk" = some (.vStr "Error") ∧
      should_alert r2 = should_alert vtReportRaw ∧
      r2.find? "Malicious" = vtReportRaw.find? "Malicious" ∧
      r2.find? "Abuse Confidence" = vtReportRaw.find? "Abuse Confidence" :=
  claim5_classifier_isolation badModelWorld ⟨.hybridFallback, ""⟩
    "1.2.3.4" vtReportRaw rfl (fun _ => ⟨.other, rfl⟩) (fun _ => rfl)

/-- A network whose AbuseIPDB endpoint answers 200 with an empty JSON
object — a successful response whose nested fields are all missing. -/
def emptyDataNet : Network :=
  { vt := fun _ _ => .error .other
    abuse := fun _ _ => .ok ⟨200, .ok (.vDict [])⟩
    otx := fun _ _ => .error .other }

theorem claim8_counterexample :
    get_abuseipdb emptyDataNet "1.2.3.4" (some "key") =
      .error .keyError := rfl

/-- C8 (amended): on a 200 response whose payload is an object with
object-typed containers where present, `get_virustotal` and `get_otx`
never raise and fill every absent field with its documented default
("N/A" for strings, 0 for numerics); `get_abuseipdb` does the same only
when the payload's top-level "data" field is present as an object — when
"data" is absent it raises a KeyError instead. -/
theorem claim8_adapter_defaults :
    (∀ (net : Network) (ip : String) (key : Option String)
       (kvs dkvs akvs skvs : List (String × Py)),
       net.vt ip key = .ok ⟨200, .ok (.vDict kvs)⟩ →
       (assocFind kvs "data").getD (.vDict []) = .vDict dkvs →
       (assocFind dkvs "attributes").getD (.vDict []) = .vDict akvs →
       (assocFind akvs "last_analysis_stats").getD (.vDict []) =
         .vDict skvs →
       get_virustotal net ip key = .ok (some (.vDict
         [("IP", .vStr ip),
          ("Country", (assocFind akvs "country").getD (.vStr "N/A")),
          ("ASN", (assocFind akvs "asn").getD (.vStr "N/A")),
          ("Malicious", (assocFind skvs "malicious").getD (.vInt 0)),
          ("Suspicious", (assocFind skvs "suspicious").getD (.vInt 0)),
          ("Abuse Confidence", .vInt 0), ("Reputation", .vInt 0),
          ("Source", .vStr "VirusTotal")]))) ∧
    (∀ (net : Network) (ip : String) (key : Option String)
       (kvs : List (String × Py)),
       net.otx ip key = .ok ⟨200, .ok (.vDict kvs)⟩ →
       get_otx net ip key = .ok (some (.vDict
         [("IP", .vStr ip),
          ("Country", (assocFind kvs "country_name").getD (.vStr "N/A")),
          ("Malicious", .vInt 0), ("Suspicious", .vInt 0),
          ("Abuse Confidence", .vInt 0),
          ("Reputation", (assocFind kvs "reputation").getD (.vInt 0)),
          ("Source", .vStr "AlienVault OTX")]))) ∧
    (∀ (net : Network) (ip : String) (key : Option String)
       (kvs dkvs : List (String × Py)),
       net.abuse ip key = .ok ⟨200, .ok (.vDict kvs)⟩ →
       assocFind kvs "data" = some (.vDict dkvs) →
       get_abuseipdb net ip key = .ok (some (.vDict
         [("IP", .vStr ip),
          ("Country", (assocFind dkvs "countryCode").getD (.vStr "N/A")),
          ("ISP", (assocFind dkvs "isp").getD (.vStr "N/A")),
          ("Malicious", .vInt 0), ("Suspicious", .vInt 0),
          ("Abuse Confidence",
            (assocFind dkvs "abuseConfidenceScore").getD (.vInt 0)),
          ("Reputation", .vInt 0),
          ("Source", .vStr "AbuseIPDB")]))) ∧
    (∀ (net : Network) (ip : String) (key : Option String)
       (kvs : List (String × Py)),
       net.abuse ip key = .ok ⟨200, .ok (.vDict kvs)⟩ →
       assocFind kvs "data" = Option.none →
       get_abuseipdb net ip key = .error .keyError) := by
  refine ⟨?_, ?_, ?_, ?_⟩
  · intro net ip key kvs dkvs akvs skvs hvt h1 h2 h3
    unfold get_virustotal
    rw [hvt]
    simp only [Bind.bind, Except.bind]
    simp only [if_true, Py.get, h1, h2, h3]
    rfl
  · intro net ip key kvs hotx
    unfold get_otx
    rw [hotx]
    simp only [Bind.bind, Except.bind]
    simp only [if_true, Py.get]
    rfl
  · intro net ip key kvs dkvs habuse hdata
    unfold get_abuseipdb
    rw [habuse]
    simp only [Bind.bind, Except.bind]
    simp only [if_true, Py.index, Py.get, hdata]
    rfl
  · intro net ip key kvs habuse hdata
    unfold get_abuseipdb
    rw [habuse]
    simp only [Bind.bind, Except.bind]
    simp only [if_true, Py.index, Py.get, hdata]

/-- A network where every provider answers 200; AbuseIPDB's payload has an
empty "data" object, the others are empty objects. -/
def emptyOkNet : Network :=
  { vt := fun _ _ => .ok ⟨200, .ok (.vDict [])⟩
    abuse := fun _ _ => .ok ⟨200, .ok (.vDict [("data", .vDict [])])⟩
    otx := fun _ _ => .ok ⟨200, .ok (.vDict [])⟩ }

theorem claim8_witness :
    get_virustotal emptyOkNet "1.1.1.1" (some "k") = .ok (some (.vDict
      [("IP", .vStr "1.1.1.1"), ("Country", .vStr "N/A"),
       ("ASN", .vStr "N/A"), ("Malicious", .vInt 0),
       ("Suspicious", .vInt 0), ("Abuse Confidence", .vInt 0),
       ("Reputation", .vInt 0), ("Source", .vStr "VirusTotal")])) ∧
    get_otx emptyOkNet "1.1.1.1" (some "k") = .ok (some (.vDict
      [("IP", .vStr "1.1.1.1"), ("Country", .vStr "N/A"),
       ("Malicious", .vInt 0), ("Suspicious", .vInt 0),
       ("Abuse Confidence", .vInt 0), ("Reputation", .vInt 0),
       ("Source", .vStr "AlienVault OTX")])) ∧
    get_abuseipdb emptyOkNet "1.1.1.1" (some "k") = .ok (some (.vDict
      [("IP", .vStr "1.1.1.1"), ("Country", .vStr "N/A"),
       ("ISP", .vStr "N/A"), ("Malicious", .vInt 0),
       ("Suspicious", .vInt 0), ("Abuse Confidence", .vInt 0),
       ("Reputation", .vInt 0), ("Source", .vStr "AbuseIPDB")])) ∧
    get_abuseipdb emptyDataNet "1.2.3.4" (some "k") = .error .keyError := by
  refine ⟨?_, ?_, ?_, ?_⟩
  · exact claim8_adapter_defaults.1 emptyOkNet "1.1.1.1" (some "k")
      [] [] [] [] rfl rfl rfl rfl
  · exact claim8_adapter_defaults.2.1 emptyOkNet "1.1.1.1" (some "k")
      [] rfl
  · exact claim8_adapter_defaults.2.2.1 emptyOkNet "1.1.1.1" (some "k")
      [("data", .vDict [])] [] rfl rfl
  · exact claim8_adapter_defaults.2.2.2 emptyDataNet "1.2.3.4" (some "k")
      [] rfl rfl

end ThreatIntel
